import Mathlib

/-!
Shallow embedding of `src/utils/BooleanSet.js` (monero-javascript).

The class stores `this.state = { inverted, ranges }` plus two stray instance
fields the code writes or reads directly on `this` (`this.inverted`,
`this.flipped`).  Operations that can throw are modelled as functions
returning `Except JSErr _`; operations that may mutate the object before or
instead of throwing additionally return the object as it stands after the
call, mirroring that a JavaScript object keeps its fields after a `throw`.
-/

/-- JavaScript values as they occur in the BooleanSet API surface.
`nonIntNum` stands for any number that is not an integer. -/
inductive JSVal where
  | undefined
  | null
  | bool (b : Bool)
  | int (n : Int)
  | nonIntNum
  | str (s : String)
  deriving Repr, DecidableEq

/-- Errors thrown by the code: failed `assert(...)`, `throw new Error(...)`,
and a ReferenceError from evaluating an undefined identifier.  Messages are
kept as short constant tags. -/
inductive JSErr where
  | assertionError (msg : String)
  | error (msg : String)
  | referenceError (name : String)
  deriving Repr, DecidableEq

/-- `true` exactly on `Except.error`. -/
def isErr {α : Type} : Except JSErr α → Bool
  | Except.error _ => true
  | Except.ok _ => false

/-- A range object `{start, end}` as stored in `state.ranges`.  The source
never constructs ranges itself; externally supplied ranges carry two
numbers, modelled as integers. -/
structure RangeObj where
  start : Int
  stop : Int
  deriving Repr, DecidableEq

/-- The internal state object `this.state`: `inverted` is `none` while the
JavaScript field is absent/`undefined` (a fresh set never assigns it, and
`set` deletes it), `some b` once it holds a boolean. -/
structure BSState where
  inverted : Option Bool
  ranges : List RangeObj
  deriving Repr, DecidableEq

/-- A BooleanSet instance: its `state` plus the stray fields written or read
directly on `this`: `this.inverted` (assigned by `set` with no index) and
`this.flipped` (read by `length`, never written anywhere). -/
structure BooleanSet where
  state : BSState
  instInverted : Option Bool
  flipped : Option Bool
  deriving Repr, DecidableEq

/-- Modelled from the spec: `GenUtils.isInt` is required by `BooleanSet.get`
and `BooleanSet.set` but its source is not among the given files; the spec
treats a "negative or non-integer index" as invalid, so `isInt` holds
exactly of integer numbers. -/
def GenUtils.isInt : JSVal → Bool
  | JSVal.int _ => true
  | _ => false

/-- Modelled from the spec: `GenUtils.copyProperties` is required by the
deep-copy constructor path but its source is not among the given files; the
spec says `copy()` "deep-copies the range collection and flag", so on this
pure value model a deep copy is the value itself. -/
def GenUtils.copyProperties (s : BSState) : BSState := s

/-- The comparison `idx >= 0` on a JavaScript value, evaluated only after
`GenUtils.isInt idx` succeeded, so only the integer case is reachable. -/
def jsNonNeg : JSVal → Bool
  | JSVal.int n => decide (0 ≤ n)
  | _ => false

/-- The index validation `GenUtils.isInt(idx) && idx >= 0` shared by `get`
and the single-index branch of `set`. -/
def validIdx (v : JSVal) : Bool := GenUtils.isInt v && jsNonNeg v

/-- `state.inverted` as the JavaScript value `get` returns when no range
matched: the raw field, `undefined` when absent. -/
def jsOfOptBool : Option Bool → JSVal
  | none => JSVal.undefined
  | some b => JSVal.bool b

/-- `BooleanSet._validateState`: asserts the state is a truthy object (true
by construction here), `typeof state.inverted === "boolean"`, that
`state.ranges` is an array (true by construction), and `start >= 0` and
`end >= 0` for every range.  It checks nothing about ordering, overlap,
adjacency or unboundedness. -/
def BooleanSet._validateState (s : BSState) : Bool :=
  (match s.inverted with
   | some _ => true
   | none => false) &&
  s.ranges.all (fun r => decide (0 ≤ r.start) && decide (0 ≤ r.stop))

/-- The constructor argument: no (or a falsy) argument, an existing
BooleanSet, or any other truthy object. -/
inductive CtorArg where
  | noArg
  | fromSet (s : BooleanSet)
  | fromObj

/-- The `BooleanSet` constructor.  With no argument it creates
`this.state = \x7b ranges: [] \x7d`, never assigning `state.inverted`.  Given a
BooleanSet it deep-copies the state and runs `_setState`, whose
`_validateState` assert throws when `state.inverted` is not a boolean.
Given any other truthy object it evaluates the undefined identifier
`state` (the parameter is named `stateOrObj`), a ReferenceError. -/
def BooleanSet.mk_ : CtorArg → Except JSErr BooleanSet
  | CtorArg.noArg => Except.ok ⟨⟨none, []⟩, none, none⟩
  | CtorArg.fromSet s =>
      let copied := GenUtils.copyProperties s.state
      if BooleanSet._validateState copied then
        Except.ok ⟨copied, none, none⟩
      else
        Except.error (JSErr.assertionError "typeof state.inverted === boolean")
  | CtorArg.fromObj => Except.error (JSErr.referenceError "state")

/-- `new BooleanSet()` with no argument: the only constructor path that
returns. -/
def BooleanSet.fresh : BooleanSet := ⟨⟨none, []⟩, none, none⟩

/-- `copy()`: `new BooleanSet(this)`. -/
def BooleanSet.copy (self : BooleanSet) : Except JSErr BooleanSet :=
  BooleanSet.mk_ (CtorArg.fromSet self)

/-- `set(val, idx)`.  Asserts `val` is a boolean.  With `idx` undefined or
null: `delete this.state.inverted`, truncate `this.state.ranges`, and — only
when `val` is truthy — assign `this.inverted = true` (the instance field,
not `this.state.inverted`), then `return;` (undefined, not `this`).  With an
index: asserts it is an integer `>= 0`, then throws `Not implemented`. -/
def BooleanSet.set (self : BooleanSet) (val idx : JSVal) :
    Except JSErr JSVal × BooleanSet :=
  match val with
  | JSVal.bool b =>
      if idx = JSVal.undefined ∨ idx = JSVal.null then
        (Except.ok JSVal.undefined,
         { self with
             state := ⟨none, []⟩,
             instInverted := if b then some true else self.instInverted })
      else if validIdx idx then
        (Except.error (JSErr.error "Not implemented"), self)
      else
        (Except.error (JSErr.assertionError "Index must be an integer >= 0"),
         self)
  | _ => (Except.error (JSErr.assertionError "Value to set must be a boolean"),
          self)

/-- `clear()`: `return this.set(false)` (the `idx` parameter is undefined). -/
def BooleanSet.clear (self : BooleanSet) : Except JSErr JSVal × BooleanSet :=
  self.set (JSVal.bool false) JSVal.undefined

/-- `get(idx)`: asserts `idx` is an integer `>= 0`; then loops over
`this.state.ranges` testing `range.start <= index && range.end >= index`,
where `index` is an undefined identifier (the parameter is `idx`), so the
first iteration throws a ReferenceError; with no ranges the loop body never
runs and the raw `this.state.inverted` is returned. -/
def BooleanSet.get (self : BooleanSet) (idx : JSVal) : Except JSErr JSVal :=
  if validIdx idx then
    match self.state.ranges with
    | [] => Except.ok (jsOfOptBool self.state.inverted)
    | _ :: _ => Except.error (JSErr.referenceError "index")
  else
    Except.error (JSErr.assertionError "Index must be an integer >= 0")

/-- `setRange(val, start, end)`: unimplemented stub, throws. -/
def BooleanSet.setRange (self : BooleanSet) (val start stop : JSVal) :
    Except JSErr JSVal × BooleanSet :=
  (Except.error (JSErr.error "Not implemented"), self)

/-- `flip(idx)`: unimplemented stub, throws. -/
def BooleanSet.flip (self : BooleanSet) (idx : JSVal) :
    Except JSErr JSVal × BooleanSet :=
  (Except.error (JSErr.error "Not implemented"), self)

/-- `flipRange(start, end)`: unimplemented stub, throws. -/
def BooleanSet.flipRange (self : BooleanSet) (start stop : JSVal) :
    Except JSErr JSVal × BooleanSet :=
  (Except.error (JSErr.error "Not implemented"), self)

/-- `getFirst(val, start = 0, end)`: unimplemented stub, throws. -/
def BooleanSet.getFirst (self : BooleanSet) (val start stop : JSVal) :
    Except JSErr JSVal :=
  Except.error (JSErr.error "Not implemented")

/-- `getLast(val, start, end)`: unimplemented stub, throws. -/
def BooleanSet.getLast (self : BooleanSet) (val start stop : JSVal) :
    Except JSErr JSVal :=
  Except.error (JSErr.error "Not implemented")

/-- `length()`: `this.flipped ? getLast(false) : getLast(true)`; in either
branch the bare identifier `getLast` is undefined (the method lives on
`this`), a ReferenceError. -/
def BooleanSet.length (self : BooleanSet) : Except JSErr JSVal :=
  match self.flipped with
  | some true => Except.error (JSErr.referenceError "getLast")
  | _ => Except.error (JSErr.referenceError "getLast")

/-- `allSet(val, start, end)`: asserts `val` is a boolean, then
`this.getFirst(!val, start, end) === null`. -/
def BooleanSet.allSet (self : BooleanSet) (val start stop : JSVal) :
    Except JSErr JSVal :=
  match val with
  | JSVal.bool b =>
      match self.getFirst (JSVal.bool (!b)) start stop with
      | Except.error e => Except.error e
      | Except.ok r => Except.ok (JSVal.bool (r = JSVal.null))
  | _ => Except.error (JSErr.assertionError "Value to check must be a boolean")

/-- `anySet(val, start = 0, end)`: asserts `val` is a boolean, then
`this.getFirst(val, start, end) !== null`. -/
def BooleanSet.anySet (self : BooleanSet) (val start stop : JSVal) :
    Except JSErr JSVal :=
  match val with
  | JSVal.bool b =>
      match self.getFirst (JSVal.bool b) start stop with
      | Except.error e => Except.error e
      | Except.ok r => Except.ok (JSVal.bool (¬ r = JSVal.null))
  | _ => Except.error (JSErr.assertionError "Value to check must be a boolean")

/-- `toArray(start = 0, end = this.length())`: when `end` is omitted the
default expression calls `this.length()`, which throws a ReferenceError;
otherwise the body throws `Not implemented`. -/
def BooleanSet.toArray (self : BooleanSet) (start : JSVal)
    (stop : Option JSVal) : Except JSErr JSVal :=
  match stop with
  | none =>
      match self.length with
      | Except.error e => Except.error e
      | Except.ok _ => Except.error (JSErr.error "Not implemented")
  | some _ => Except.error (JSErr.error "Not implemented")

/-- The RangeCollection invariant in the spec's words: ranges strictly
increasing, mutually disjoint and non-adjacent (`end + 1 < start` for each
consecutive pair), every range well-formed (`0 ≤ start ≤ end`).  Stated for
comparison with `BooleanSet._validateState`; it is not what the code
checks. -/
def specRangeInvariant : List RangeObj → Bool
  | [] => true
  | [r] => decide (0 ≤ r.start) && decide (r.start ≤ r.stop)
  | r₁ :: r₂ :: rest =>
      decide (0 ≤ r₁.start) && decide (r₁.start ≤ r₁.stop) &&
      decide (r₁.stop + 1 < r₂.start) && specRangeInvariant (r₂ :: rest)

/-- An invalid index argument in the claims' sense: a negative integer or a
non-integer number. -/
def isInvalidIdx : JSVal → Bool
  | JSVal.int n => decide (n < 0)
  | JSVal.nonIntNum => true
  | _ => false

/-- A non-boolean passed where a boolean is required. -/
def isNonBool : JSVal → Bool
  | JSVal.bool _ => false
  | _ => true

/-- A BooleanSet whose state carries a boolean flag and one stored range,
as an externally built state would after `_setState`. -/
def sampleNonEmpty : BooleanSet := ⟨⟨some false, [⟨0, 2⟩]⟩, none, none⟩

/-- Both branches of the ternary in `length()` evaluate the undefined bare
identifier `getLast`, so `length()` throws on every instance. -/
lemma BooleanSet.length_eq (s : BooleanSet) :
    s.length = Except.error (JSErr.referenceError "getLast") := by
  unfold BooleanSet.length
  rcases s.flipped with _ | b
  · rfl
  · cases b <;> rfl

/-- A concrete state violating the spec's RangeCollection invariant (the
ranges are out of order), used against `_validateState`. -/
def malformedState : BSState := ⟨some false, [⟨5, 10⟩, ⟨0, 3⟩]⟩

/-- C1: the claim says `get(i)` on a freshly constructed set returns the
boolean `false` for every `i ≥ 0`.  The code instead returns the raw
`state.inverted` field, which the no-argument constructor never assigns,
so the call returns `undefined`, not the boolean `false`. -/
theorem C1_get_on_fresh_returns_undefined_not_false (n : Nat) :
    BooleanSet.fresh.get (JSVal.int n) = Except.ok JSVal.undefined ∧
    BooleanSet.fresh.get (JSVal.int n) ≠ Except.ok (JSVal.bool false) := by
  have hv : validIdx (JSVal.int n) = true := by
    simp [validIdx, GenUtils.isInt, jsNonNeg, Int.natCast_nonneg]
  constructor <;>
    simp [BooleanSet.get, BooleanSet.fresh, hv, jsOfOptBool]

/-- C2: the claim says `set(val)` with no index clears the ranges and sets
the state's `inverted` flag to `val`.  The code clears the ranges but
deletes `state.inverted` and writes the unrelated instance field
`this.inverted` instead (and only when `val` is true), so the state's
`inverted` flag afterwards is `undefined`, never equal to `val`. -/
theorem C2_set_all_leaves_state_inverted_undefined (s : BooleanSet) (b : Bool) :
    (s.set (JSVal.bool b) JSVal.undefined).2.state.ranges = [] ∧
    (s.set (JSVal.bool b) JSVal.undefined).2.state.inverted = none ∧
    (s.set (JSVal.bool b) JSVal.undefined).2.state.inverted ≠ some b ∧
    (s.set (JSVal.bool b) JSVal.undefined).2.instInverted =
      (if b then some true else s.instInverted) := by
  simp [BooleanSet.set]

/-- C3: the claim says after `set(true)`, `get(i)` is `true` for every `i`
and `length()` is `0`.  In the code, `set(true)` deletes `state.inverted`,
so `get(i)` returns `undefined`; and `length()` evaluates the undefined
bare identifier `getLast`, throwing a ReferenceError instead of returning
`0`. -/
theorem C3_after_set_true_get_undefined_and_length_throws
    (s : BooleanSet) (n : Nat) :
    ((s.set (JSVal.bool true) JSVal.undefined).2.get (JSVal.int n) =
      Except.ok JSVal.undefined) ∧
    ((s.set (JSVal.bool true) JSVal.undefined).2.get (JSVal.int n) ≠
      Except.ok (JSVal.bool true)) ∧
    (s.set (JSVal.bool true) JSVal.undefined).2.length =
      Except.error (JSErr.referenceError "getLast") := by
  have hv : validIdx (JSVal.int n) = true := by
    simp [validIdx, GenUtils.isInt, jsNonNeg, Int.natCast_nonneg]
  refine ⟨?_, ?_, ?_⟩ <;>
    simp [BooleanSet.set, BooleanSet.get, BooleanSet.length_eq, hv, jsOfOptBool]

/-- C4: the claim says a double `flipRange(a,b)` restores the original
observable values.  `flipRange` is an unimplemented stub: every call
throws `Error("Not implemented")` and no flip ever happens. -/
theorem C4_flipRange_always_throws (s : BooleanSet) (a b : JSVal) :
    (s.flipRange a b).1 = Except.error (JSErr.error "Not implemented") ∧
    (s.flipRange a b).2 = s := by
  simp [BooleanSet.flipRange]

/-- C5: the claim relates the boolean returned by `allSet(v,a,b)` to the
boolean returned by `anySet(!v,a,b)`.  Both delegate to the unimplemented
stub `getFirst`, so with a boolean argument neither ever returns: both
throw `Error("Not implemented")` on every input. -/
theorem C5_allSet_anySet_always_throw (s : BooleanSet) (v : Bool)
    (a b : JSVal) :
    s.allSet (JSVal.bool v) a b =
      Except.error (JSErr.error "Not implemented") ∧
    s.anySet (JSVal.bool (!v)) a b =
      Except.error (JSErr.error "Not implemented") := by
  simp [BooleanSet.allSet, BooleanSet.anySet, BooleanSet.getFirst]

/-- C6: the claim says `copy()` yields an independent BooleanSet.  In the
code `copy()` re-validates the copied state, whose `inverted` field a
fresh set never assigns, so the validation assert throws and no copy is
ever produced. -/
theorem C6_copy_of_fresh_throws :
    BooleanSet.fresh.copy =
      Except.error (JSErr.assertionError "typeof state.inverted === boolean") := by
  rfl

/-- A negative or non-integer index fails the `isInt(idx) && idx >= 0`
validation. -/
lemma validIdx_eq_false_of_invalid (idx : JSVal)
    (h : isInvalidIdx idx = true) : validIdx idx = false := by
  cases idx <;>
    simp_all [isInvalidIdx, validIdx, GenUtils.isInt, jsNonNeg]

/-- A negative or non-integer index is neither `undefined` nor `null`, so
`set` does not take its set-all branch on it. -/
lemma invalidIdx_not_omitted (idx : JSVal) (h : isInvalidIdx idx = true) :
    ¬(idx = JSVal.undefined ∨ idx = JSVal.null) := by
  cases idx <;> simp_all [isInvalidIdx]

/-- C7: a public operation given an invalid argument — a non-boolean where
a boolean is required, or a negative or non-integer index — fails (throws)
and leaves the instance exactly as it was: `set` validates before its
mutating branch, `get`/`allSet`/`anySet` validate and never mutate, and the
remaining operations throw before touching any field. -/
theorem C7_invalid_arguments_fail_without_mutation (s : BooleanSet)
    (v idx a b : JSVal) (w : Bool)
    (hv : isNonBool v = true) (hidx : isInvalidIdx idx = true) :
    (isErr (s.set v a).1 = true ∧ (s.set v a).2 = s) ∧
    (isErr (s.set (JSVal.bool w) idx).1 = true ∧
      (s.set (JSVal.bool w) idx).2 = s) ∧
    isErr (s.get idx) = true ∧
    isErr (s.allSet v a b) = true ∧
    isErr (s.anySet v a b) = true ∧
    (isErr (s.setRange v a b).1 = true ∧ (s.setRange v a b).2 = s) ∧
    (isErr (s.flip idx).1 = true ∧ (s.flip idx).2 = s) ∧
    (isErr (s.flipRange idx b).1 = true ∧ (s.flipRange idx b).2 = s) ∧
    isErr (s.getFirst v idx b) = true ∧
    isErr (s.getLast v idx b) = true ∧
    isErr (s.toArray idx none) = true ∧
    isErr (s.toArray a (some idx)) = true := by
  have h1 := validIdx_eq_false_of_invalid idx hidx
  have h2 := invalidIdx_not_omitted idx hidx
  cases v <;>
    simp_all [isNonBool, BooleanSet.set, BooleanSet.get, BooleanSet.allSet,
      BooleanSet.anySet, BooleanSet.setRange, BooleanSet.flip,
      BooleanSet.flipRange, BooleanSet.getFirst, BooleanSet.getLast,
      BooleanSet.toArray, BooleanSet.length_eq, isErr]

/-- Witness for C7 at `s = fresh`, `v = "x"`, `idx = -1`, `a = 0`,
`b = undefined`, `w = true`. -/
theorem C7_witness :
    isNonBool (JSVal.str "x") = true ∧ isInvalidIdx (JSVal.int (-1)) = true ∧
    ((isErr (BooleanSet.fresh.set (JSVal.str "x") (JSVal.int 0)).1 = true ∧
      (BooleanSet.fresh.set (JSVal.str "x") (JSVal.int 0)).2 = BooleanSet.fresh) ∧
     (isErr (BooleanSet.fresh.set (JSVal.bool true) (JSVal.int (-1))).1 = true ∧
      (BooleanSet.fresh.set (JSVal.bool true) (JSVal.int (-1))).2 = BooleanSet.fresh) ∧
     isErr (BooleanSet.fresh.get (JSVal.int (-1))) = true ∧
     isErr (BooleanSet.fresh.allSet (JSVal.str "x") (JSVal.int 0) JSVal.undefined) = true ∧
     isErr (BooleanSet.fresh.anySet (JSVal.str "x") (JSVal.int 0) JSVal.undefined) = true ∧
     (isErr (BooleanSet.fresh.setRange (JSVal.str "x") (JSVal.int 0) JSVal.undefined).1 = true ∧
      (BooleanSet.fresh.setRange (JSVal.str "x") (JSVal.int 0) JSVal.undefined).2 = BooleanSet.fresh) ∧
     (isErr (BooleanSet.fresh.flip (JSVal.int (-1))).1 = true ∧
      (BooleanSet.fresh.flip (JSVal.int (-1))).2 = BooleanSet.fresh) ∧
     (isErr (BooleanSet.fresh.flipRange (JSVal.int (-1)) JSVal.undefined).1 = true ∧
      (BooleanSet.fresh.flipRange (JSVal.int (-1)) JSVal.undefined).2 = BooleanSet.fresh) ∧
     isErr (BooleanSet.fresh.getFirst (JSVal.str "x") (JSVal.int (-1)) JSVal.undefined) = true ∧
     isErr (BooleanSet.fresh.getLast (JSVal.str "x") (JSVal.int (-1)) JSVal.undefined) = true ∧
     isErr (BooleanSet.fresh.toArray (JSVal.int (-1)) none) = true ∧
     isErr (BooleanSet.fresh.toArray (JSVal.int 0) (some (JSVal.int (-1)))) = true) :=
  ⟨by decide, by decide,
   C7_invalid_arguments_fail_without_mutation BooleanSet.fresh
     (JSVal.str "x") (JSVal.int (-1)) (JSVal.int 0) JSVal.undefined true
     (by decide) (by decide)⟩

/-- C8 counterexample: a state whose ranges are out of order — violating
the spec's RangeCollection invariant — nevertheless passes
`_validateState`, which only checks the flag's type and that each range's
bounds are nonnegative. -/
theorem C8_counterexample_malformed_state_passes_validation :
    specRangeInvariant malformedState.ranges = false ∧
    BooleanSet._validateState malformedState = true := by
  decide

/-- C8 amended: `_validateState` accepts a state exactly when `inverted`
is a boolean and every stored range has `start ≥ 0` and `end ≥ 0`; it does
not reject overlapping, unsorted or adjacent-unmerged range collections. -/
theorem C8_amended_validation_checks_only_shallow_shape (s : BSState) :
    BooleanSet._validateState s = true ↔
      s.inverted ≠ none ∧ ∀ r ∈ s.ranges, 0 ≤ r.start ∧ 0 ≤ r.stop := by
  rcases s with ⟨_ | b, ranges⟩ <;>
    simp [BooleanSet._validateState, List.all_eq_true]

/-- C9: with a valid index, `get` throws a ReferenceError (its containment
loop reads the undefined identifier `index`) whenever the stored range
list is non-empty, and only with an empty range list does it return — and
then it returns the raw `state.inverted` field. -/
theorem C9_get_throws_unless_ranges_empty (s : BooleanSet) (n : Nat) :
    (s.state.ranges ≠ [] →
      s.get (JSVal.int n) = Except.error (JSErr.referenceError "index")) ∧
    (s.state.ranges = [] →
      s.get (JSVal.int n) = Except.ok (jsOfOptBool s.state.inverted)) := by
  have hv : validIdx (JSVal.int n) = true := by
    simp [validIdx, GenUtils.isInt, jsNonNeg, Int.natCast_nonneg]
  constructor
  · intro h
    rcases hr : s.state.ranges with _ | ⟨r, rs⟩
    · exact absurd hr h
    · simp [BooleanSet.get, hv, hr]
  · intro h
    simp [BooleanSet.get, hv, h]

/-- Witness for C9: a set holding one range makes `get 0` throw, and the
fresh (rangeless) set makes `get 1` return its raw undefined flag. -/
theorem C9_witness :
    (sampleNonEmpty.state.ranges ≠ [] ∧
     sampleNonEmpty.get (JSVal.int 0) =
       Except.error (JSErr.referenceError "index")) ∧
    (BooleanSet.fresh.state.ranges = [] ∧
     BooleanSet.fresh.get (JSVal.int 1) = Except.ok JSVal.undefined) :=
  ⟨⟨by decide, (C9_get_throws_unless_ranges_empty sampleNonEmpty 0).1 (by decide)⟩,
   ⟨rfl, (C9_get_throws_unless_ranges_empty BooleanSet.fresh 1).2 rfl⟩⟩

/-- C10: a fresh set never assigns `state.inverted`, and the deep-copy
constructor path re-validates the copied state, whose `typeof
state.inverted === "boolean"` assert then fails, so `copy()` on a fresh
set (equivalently, passing it to the constructor) always throws. -/
theorem C10_copy_of_fresh_always_throws :
    BooleanSet.fresh.state.inverted = none ∧
    BooleanSet._validateState (GenUtils.copyProperties BooleanSet.fresh.state) = false ∧
    BooleanSet.fresh.copy =
      Except.error (JSErr.assertionError "typeof state.inverted === boolean") :=
  ⟨rfl, rfl, rfl⟩
